import Mathlib

/-!
Shallow embedding of the `mcp-simple-textedit` repository's edit engines.

The repository contains two line-oriented text-edit implementations:

* `src/mcp_simple_textedit/textedit_procedure.py` — the engine actually wired
  into the server (`server.py` imports `edit_text_file` from it).  Embedded
  below in namespace `TP`.
* `src/mcp_simple_textedit/tools/edit.py` — a second variant engine
  (`find_block` / `verify_content` / `process_operation` / `edit_file`).
  Embedded in namespace `TE`.
* `src/mcp_simple_textedit/tools/append.py` — the append engine, embedded in
  namespace `AP`.

Modelling conventions:

* A file's lines are `List String`; each line normally keeps its trailing
  `'\n'`, exactly as Python's `readlines` produces them.
* Python's unbounded `int` is `Int`; Python list slicing (with its silent
  clamping and negative-index wraparound) is modelled by `pyIdx` / `pySlice`,
  and Python list indexing (with `IndexError` out of range) by `pyGetIdx`.
* Python truthiness tests (`if self.start_pattern:`, `if self.end_line`,
  `if self.expected_content`) are modelled by `pyTruthyStr` / `pyTruthyInt`:
  `None`, the empty string and `0` are falsy.
* `re.search(pattern, line)` is external library code (Python's `re`), not
  part of this repository, so it is abstracted as a `Matcher` parameter
  `m : String → String → Bool` taken by every pattern-consuming function;
  concrete matchers (`substrMatch`, `anchoredLineMatch`) that agree with
  `re.search` on metacharacter-free and `^literal$` patterns are provided for
  concrete test inputs.
* Python exceptions are `Except EditError`; the distinct `raise` sites of the
  source are mapped to distinct `EditError` constructors.
* The disk is a single file body `String`; `read` is `pyReadlines`, and the
  single terminal `writelines` call of each engine is made explicit in
  `TP.diskAfterEdit` / `TE.diskAfterEditFile`, which return the original body
  whenever the engine raised before reaching its write.
-/

deriving instance DecidableEq for Except

namespace TextEdit

/-- The abstract interface of `re.search`: `m pattern line` holds when the
regular expression `pattern` has a match somewhere inside `line`. -/
abbrev Matcher := String → String → Bool

/-- Python `str.strip()` whitespace set: space, tab, newline, carriage return,
vertical tab and form feed. -/
def pyIsSpace (c : Char) : Bool :=
  c = ' ' || c = '\t' || c = '\n' || c = '\r' || c = '\x0b' || c = '\x0c'

/-- Python `s.strip()`: drop leading and trailing whitespace characters. -/
def pyStrip (s : String) : String :=
  String.mk (((s.toList.dropWhile pyIsSpace).reverse.dropWhile pyIsSpace).reverse)

/-- Python `line.endswith('\n')`: the last character is a newline. -/
def endsWithNl (s : String) : Bool := s.toList.getLast? = some '\n'

/-- Normalize a Python slice endpoint against a list of length `n`:
negative indices count from the end, and both ends are clamped to `[0, n]`.
This is the standard-library slice-index normalization Python applies to
`l[a:b]`. -/
def pyIdx (n : Nat) (i : Int) : Nat :=
  if i < 0 then (i + n).toNat else min i.toNat n

/-- Python `l[a:b]`: the elements with normalized indices in `[a, b)`. -/
def pySlice (l : List String) (a b : Int) : List String :=
  (l.take (pyIdx l.length b)).drop (pyIdx l.length a)

/-- Python `l[:b]`. -/
def pySliceTo (l : List String) (b : Int) : List String :=
  l.take (pyIdx l.length b)

/-- Python `l[a:]`. -/
def pySliceFrom (l : List String) (a : Int) : List String :=
  l.drop (pyIdx l.length a)

/-- Python `l[i]` for a possibly negative index: negative indices count from
the end; an index out of range yields `none` (an `IndexError` at the call
site). -/
def pyGetIdx (l : List String) (i : Int) : Option String :=
  if i < 0 then
    if 0 ≤ i + l.length then l.get? (i + l.length).toNat else none
  else
    l.get? i.toNat

/-- Python truthiness of an optional string: `None` and `""` are falsy.
Returns the string exactly when it is truthy. -/
def pyTruthyStr : Option String → Option String
  | some s => if s = "" then none else some s
  | none => none

/-- Python truthiness of an optional integer: `None` and `0` are falsy.
Returns the integer exactly when it is truthy. -/
def pyTruthyInt : Option Int → Option Int
  | some n => if n = 0 then none else some n
  | none => none

/-- Helper for `pyReadlines`: scan the character list, accumulating the
current (reversed) line and flushing it after each `'\n'`. -/
def pyReadlinesAux : List Char → List Char → List String
  | [], acc => if acc = [] then [] else [String.mk acc.reverse]
  | c :: cs, acc =>
    if c = '\n' then String.mk (c :: acc).reverse :: pyReadlinesAux cs []
    else pyReadlinesAux cs (c :: acc)

/-- Python `f.readlines()` on a file body: split into lines, each line keeping
its trailing `'\n'`; a final fragment without a terminator is kept as-is. -/
def pyReadlines (s : String) : List String := pyReadlinesAux s.toList []

/-- The distinct failure modes of the engines, one constructor per `raise`
site (plus `typeError` / `indexError` for the runtime errors Python itself
raises on `None` arithmetic and out-of-range indexing). `editFailed` is the
blanket `ValueError(f"Failed to edit file: ...")` wrapper of
`tools/edit.py`. -/
inductive EditError where
  | patternNotFound (pattern : String)
  | verificationFailed
  | invalidLineRange (startDisp endDisp : Int)
  | typeError
  | indexError
  | missingContent
  | unknownType (t : String)
  | emptyContent
  | editFailed (e : EditError)
deriving DecidableEq

/-- Content normalization shared by Replace/Insert (`content_with_newlines`
in both engines): each supplied string gets a single `'\n'` appended unless it
already ends with one. -/
def contentWithNewlines (content : List String) : List String :=
  content.map (fun line => if endsWithNl line then line else line ++ "\n")

/-- Linear first-match search from `tools/edit.py`'s `find_block`, also the
meaning of the `next((i for i, line in enumerate(lines) ...), -1)` generators
of `textedit_procedure.py`: the first index `i ≥ start_from` whose line
matches, else `none`. -/
def find_blockAux (m : Matcher) (pat : String) : List String → Nat → Option Nat
  | [], _ => none
  | line :: rest, i =>
    if m pat line then some i else find_blockAux m pat rest (i + 1)

/-- Python `find_block(lines, pattern, start_from)`: scan indices
`start_from, start_from+1, ...` in increasing order; first match wins. -/
def find_block (m : Matcher) (lines : List String) (pat : String)
    (start_from : Nat) : Option Nat :=
  find_blockAux m pat (lines.drop start_from) start_from

/-- Helper for `findFrom`: iterate `i, i+1, ...` for `fuel` steps, indexing
the list Python-style (so a negative `i` wraps around and an unreachable
index raises `IndexError`). -/
def findFromAux (m : Matcher) (pat : String) (lines : List String) :
    Nat → Int → Except EditError (Option Int)
  | 0, _ => .ok none
  | fuel + 1, i =>
    match pyGetIdx lines i with
    | none => .error .indexError
    | some line =>
      if m pat line then .ok (some i)
      else findFromAux m pat lines fuel (i + 1)

/-- The end-pattern search of `textedit_procedure.py`:
`next((i for i in range(a, len(lines)) if re.search(pat, lines[i])), -1)`.
The loop runs `i = a, a+1, ..., len(lines)-1` and indexes `lines[i]`
Python-style (relevant when a line-number locator made `a` negative). -/
def findFrom (m : Matcher) (lines : List String) (pat : String) (a : Int) :
    Except EditError (Option Int) :=
  findFromAux m pat lines ((lines.length : Int) - a).toNat a

namespace TP

/-- Fields of `textedit_procedure.DeleteOperation`. -/
structure DeleteOperation where
  start_pattern : Option String := none
  end_pattern : Option String := none
  start_line : Option Int := none
  end_line : Option Int := none
  expected_content : Option String := none

/-- Fields of `textedit_procedure.ReplaceOperation`. -/
structure ReplaceOperation where
  content : List String
  start_pattern : Option String := none
  end_pattern : Option String := none
  start_line : Option Int := none
  end_line : Option Int := none
  expected_content : Option String := none

/-- Fields of `textedit_procedure.InsertOperation`. -/
structure InsertOperation where
  content : List String
  after_pattern : Option String := none
  before_pattern : Option String := none
  after_line : Option Int := none
  expected_content : Option String := none

/-- Start-index resolution shared verbatim by `DeleteOperation.apply` and
`ReplaceOperation.apply`: a truthy `start_pattern` is searched from index 0
(first match wins, no match raises), otherwise `start_line - 1` is used
(`None` arithmetic raises `TypeError`). -/
def resolveStartIdx (m : Matcher) (start_pattern : Option String)
    (start_line : Option Int) (lines : List String) : Except EditError Int :=
  match pyTruthyStr start_pattern with
  | some p =>
    match find_block m lines p 0 with
    | some i => .ok (i : Int)
    | none => .error (.patternNotFound p)
  | none =>
    match start_line with
    | some n => .ok (n - 1)
    | none => .error .typeError

/-- End-index resolution shared verbatim by `DeleteOperation.apply` and
`ReplaceOperation.apply`: a truthy `end_pattern` is searched from
`start_idx + 1`, otherwise `end_idx = self.end_line - 1 if self.end_line
else start_idx`. -/
def resolveEndIdx (m : Matcher) (end_pattern : Option String)
    (end_line : Option Int) (start_idx : Int) (lines : List String) :
    Except EditError Int :=
  match pyTruthyStr end_pattern with
  | some p =>
    match findFrom m lines p (start_idx + 1) with
    | .error e => .error e
    | .ok (some i) => .ok i
    | .ok none => .error (.patternNotFound p)
  | none =>
    match pyTruthyInt end_line with
    | some n => .ok (n - 1)
    | none => .ok start_idx

/-- The block-verification step shared verbatim by `DeleteOperation.apply`
and `ReplaceOperation.apply`: only a truthy `expected_content` verifies, by
joining `lines[start_idx:end_idx + 1]` and comparing it whitespace-stripped
against the stripped expectation. -/
def verifyBlock (expected_content : Option String) (start_idx end_idx : Int)
    (lines : List String) : Except EditError Unit :=
  match pyTruthyStr expected_content with
  | some exp =>
    if pyStrip (String.join (pySlice lines start_idx (end_idx + 1))) = pyStrip exp
    then .ok ()
    else .error .verificationFailed
  | none => .ok ()

/-- `textedit_procedure.DeleteOperation.apply`. -/
def DeleteOperation.apply (m : Matcher) (op : DeleteOperation)
    (lines : List String) : Except EditError (List String) :=
  match resolveStartIdx m op.start_pattern op.start_line lines with
  | .error e => .error e
  | .ok start_idx =>
    match resolveEndIdx m op.end_pattern op.end_line start_idx lines with
    | .error e => .error e
    | .ok end_idx =>
      match verifyBlock op.expected_content start_idx end_idx lines with
      | .error e => .error e
      | .ok _ => .ok (pySliceTo lines start_idx ++ pySliceFrom lines (end_idx + 1))

/-- `textedit_procedure.ReplaceOperation.apply`. -/
def ReplaceOperation.apply (m : Matcher) (op : ReplaceOperation)
    (lines : List String) : Except EditError (List String) :=
  match resolveStartIdx m op.start_pattern op.start_line lines with
  | .error e => .error e
  | .ok start_idx =>
    match resolveEndIdx m op.end_pattern op.end_line start_idx lines with
    | .error e => .error e
    | .ok end_idx =>
      match verifyBlock op.expected_content start_idx end_idx lines with
      | .error e => .error e
      | .ok _ =>
        .ok (pySliceTo lines start_idx ++ contentWithNewlines op.content ++
             pySliceFrom lines (end_idx + 1))

/-- Anchor resolution of `textedit_procedure.InsertOperation.apply`.  Note the
`before_pattern` branch: the source computes
`next((i - 1 for i, line in enumerate(lines) if re.search(...)), -1)` and then
treats `-1` as the not-found sentinel, so a match on the very first line
(which legitimately yields `i - 1 = -1`) is indistinguishable from no match
and raises. -/
def resolveInsertIdx (m : Matcher) (op : InsertOperation)
    (lines : List String) : Except EditError Int :=
  match pyTruthyStr op.after_pattern with
  | some p =>
    match find_block m lines p 0 with
    | some i => .ok (i : Int)
    | none => .error (.patternNotFound p)
  | none =>
    match pyTruthyStr op.before_pattern with
    | some p =>
      match find_block m lines p 0 with
      | some i =>
        if (i : Int) - 1 = -1 then .error (.patternNotFound p)
        else .ok ((i : Int) - 1)
      | none => .error (.patternNotFound p)
    | none =>
      match op.after_line with
      | some n => .ok (n - 1)
      | none => .error .typeError

/-- The anchor-verification step of `InsertOperation.apply`:
`if self.expected_content and insert_idx >= 0:` compare the single line
`lines[insert_idx]` whitespace-stripped against the stripped expectation. -/
def verifyAnchor (expected_content : Option String) (insert_idx : Int)
    (lines : List String) : Except EditError Unit :=
  match pyTruthyStr expected_content with
  | some exp =>
    if 0 ≤ insert_idx then
      match pyGetIdx lines insert_idx with
      | none => .error .indexError
      | some line =>
        if pyStrip line = pyStrip exp then .ok ()
        else .error .verificationFailed
    else .ok ()
  | none => .ok ()

/-- `textedit_procedure.InsertOperation.apply`. -/
def InsertOperation.apply (m : Matcher) (op : InsertOperation)
    (lines : List String) : Except EditError (List String) :=
  match resolveInsertIdx m op lines with
  | .error e => .error e
  | .ok insert_idx =>
    match verifyAnchor op.expected_content insert_idx lines with
    | .error e => .error e
    | .ok _ =>
      .ok (pySliceTo lines (insert_idx + 1) ++ contentWithNewlines op.content ++
           pySliceFrom lines (insert_idx + 1))

/-- The closed variant set dispatched by `create_operation`. -/
inductive Operation where
  | delete (op : DeleteOperation)
  | replace (op : ReplaceOperation)
  | insert (op : InsertOperation)

/-- Dynamic dispatch `operation.apply(lines)`. -/
def Operation.apply (m : Matcher) : Operation → List String →
    Except EditError (List String)
  | .delete op, lines => DeleteOperation.apply m op lines
  | .replace op, lines => ReplaceOperation.apply m op lines
  | .insert op, lines => InsertOperation.apply m op lines

/-- The operation loop of `edit_text_file`:
`for operation_dict in operations: lines = operation.apply(lines)`,
any exception aborting the remaining list. -/
def applyOps (m : Matcher) : List Operation → List String →
    Except EditError (List String)
  | [], lines => .ok lines
  | op :: rest, lines =>
    match Operation.apply m op lines with
    | .error e => .error e
    | .ok mutated => applyOps m rest mutated

/-- `textedit_procedure.edit_text_file` over an in-memory disk: read the
file body into lines, run every operation in order, and produce the body that
the single terminal `writelines` call persists. -/
def edit_text_file (m : Matcher) (disk : String) (ops : List Operation) :
    Except EditError String :=
  match applyOps m ops (pyReadlines disk) with
  | .error e => .error e
  | .ok lines => .ok (String.join lines)

/-- The on-disk file body after an `edit_text_file` request: the source
performs its one and only write after the whole operation loop, so a failing
request leaves the original body in place. -/
def diskAfterEdit (m : Matcher) (disk : String) (ops : List Operation) :
    String :=
  match edit_text_file m disk ops with
  | .error _ => disk
  | .ok body => body

end TP

namespace TE

/-- An operation record of `tools/edit.py`: a JSON-like dict.  Field lookup in
the source is by key presence (`"start_pattern" in operation`), so `none`
models an absent key and `some v` a present one — presence, not truthiness,
decides each branch here, unlike `textedit_procedure.py`. -/
structure TEOperation where
  type : String
  start_pattern : Option String := none
  end_pattern : Option String := none
  after_pattern : Option String := none
  before_pattern : Option String := none
  start_line : Option Int := none
  end_line : Option Int := none
  after_line : Option Int := none
  content : Option (List String) := none
  expected_content : Option String := none

/-- `tools/edit.py`'s `verify_content`: join `lines[start:end + 1]` and
compare whitespace-stripped. -/
def verify_content (lines : List String) (start fin : Int) (expected : String) :
    Bool :=
  pyStrip (String.join (pySlice lines start (fin + 1))) = pyStrip expected

/-- The locator phase of `tools/edit.py`'s `process_operation`.  The source
initializes `start_idx = end_idx = None` and only some branches assign
`end_idx`, so the result carries `Option Int` for the end.  Note the
line-number fallback reads `end_line` without converting it to 0-based
(`end_idx = operation.get("end_line", start_idx)`), exactly as the source
does. -/
def locate (m : Matcher) (lines : List String) (op : TEOperation) :
    Except EditError (Int × Option Int) :=
  match op.start_pattern with
  | some p =>
    match find_block m lines p 0 with
    | none => .error (.patternNotFound p)
    | some i =>
      match op.end_pattern with
      | some q =>
        match find_block m lines q (i + 1) with
        | none => .error (.patternNotFound q)
        | some j => .ok ((i : Int), some (j : Int))
      | none => .ok ((i : Int), none)
  | none =>
    match op.after_pattern with
    | some p =>
      match find_block m lines p 0 with
      | none => .error (.patternNotFound p)
      | some i => .ok ((i : Int), some (i : Int))
    | none =>
      match op.before_pattern with
      | some p =>
        match find_block m lines p 0 with
        | none => .error (.patternNotFound p)
        | some j => .ok ((j : Int) - 1, some (j : Int))
      | none =>
        let s := (op.start_line.getD (op.after_line.getD 1)) - 1
        let e := op.end_line.getD s
        if s < 0 ∨ (lines.length : Int) ≤ e then
          .error (.invalidLineRange (s + 1) (e + 1))
        else .ok (s, some e)

/-- The trailing `type`-dispatch of `tools/edit.py`'s `process_operation`
(the `if op_type == ...` chain performing the edit once the block is located
and verified).  Arithmetic on a still-`None` `end_idx` (`end_idx + 1`) is
Python's `TypeError`. -/
def dispatch (lines : List String) (op : TEOperation) (start_idx : Int)
    (end_idx : Option Int) : Except EditError (List String) :=
  if op.type = "delete" then
    match end_idx with
    | none => .error .typeError
    | some e => .ok (pySliceTo lines start_idx ++ pySliceFrom lines (e + 1))
  else if op.type = "replace" then
    match op.content with
    | none => .error .missingContent
    | some c =>
      match end_idx with
      | none => .error .typeError
      | some e =>
        .ok (pySliceTo lines start_idx ++ contentWithNewlines c ++
             pySliceFrom lines (e + 1))
  else if op.type = "insert" then
    match op.content with
    | none => .error .missingContent
    | some c =>
      .ok (pySliceTo lines (start_idx + 1) ++ contentWithNewlines c ++
           pySliceFrom lines (start_idx + 1))
  else .error (.unknownType op.type)

/-- `tools/edit.py`'s `process_operation`: locate, verify when the
`expected_content` key is present, then dispatch on `type`.  Verification on
a still-`None` `end_idx` hits `lines[start:None + 1]`, Python's
`TypeError`. -/
def process_operation (m : Matcher) (lines : List String) (op : TEOperation) :
    Except EditError (List String) :=
  match locate m lines op with
  | .error e => .error e
  | .ok (start_idx, end_idx) =>
    match op.expected_content with
    | some exp =>
      match end_idx with
      | none => .error .typeError
      | some e =>
        if verify_content lines start_idx e exp then
          dispatch lines op start_idx end_idx
        else .error .verificationFailed
    | none => dispatch lines op start_idx end_idx

/-- The operation loop of `tools/edit.py`'s `edit_file`, without the outer
`try`. -/
def processOps (m : Matcher) : List TEOperation → List String →
    Except EditError (List String)
  | [], lines => .ok lines
  | op :: rest, lines =>
    match process_operation m lines op with
    | .error e => .error e
    | .ok mutated => processOps m rest mutated

/-- `tools/edit.py`'s `edit_file` over an in-memory disk: read, loop, write;
the whole body sits in a `try` whose `except` re-raises every failure wrapped
as `ValueError(f"Failed to edit file: ...")`. -/
def edit_file (m : Matcher) (disk : String) (ops : List TEOperation) :
    Except EditError String :=
  match processOps m ops (pyReadlines disk) with
  | .error e => .error (.editFailed e)
  | .ok lines => .ok (String.join lines)

/-- The on-disk file body after an `edit_file` request: the single write
happens after the whole loop, so a failing request leaves the original
body. -/
def diskAfterEditFile (m : Matcher) (disk : String) (ops : List TEOperation) :
    String :=
  match edit_file m disk ops with
  | .error _ => disk
  | .ok body => body

end TE

namespace AP

/-- `tools/append.py`'s `append_text` over an in-memory disk.  The empty-
content check precedes every file access; `needs_newline` is decided by a
one-byte probe of the final byte (`'\n'` is a one-byte character in UTF-8, so
probing the last byte of a non-empty file is probing its last character);
then the file is opened in append mode and each content line is written,
followed by `'\n'` when it does not already end with one. -/
def append_text (disk : String) (content : List String)
    (ensure_newline : Bool := true) : Except EditError String :=
  if content = [] then .error .emptyContent
  else
    let needs_newline :=
      ensure_newline && !disk.isEmpty && !(disk.toList.getLast? == some '\n')
    .ok (disk ++ (if needs_newline then "\n" else "") ++
         String.join (contentWithNewlines content))

end AP

/-- Check whether the first character list occurs contiguously inside the
second. -/
def charsInfix (p : List Char) : List Char → Bool
  | [] => decide (p = [])
  | c :: cs => p.isPrefixOf (c :: cs) || charsInfix p cs

/-- A concrete `Matcher` agreeing with `re.search` on patterns that contain no
regex metacharacters: such a pattern matches a line exactly when it occurs in
it as a substring. -/
def substrMatch (pat line : String) : Bool :=
  charsInfix pat.toList line.toList

/-- A concrete `Matcher` agreeing with `re.search` on patterns of the form
`^literal$`: with `re`'s default flags, such a pattern matches exactly when
the whole string — minus a final `'\n'`, before which `$` also matches —
equals the literal. -/
def anchoredLineMatch (pat line : String) : Bool :=
  (if endsWithNl line then line.dropRight 1 else line) =
    (pat.drop 1).dropRight 1

/-! ### Supporting lemmas about the linear pattern search -/

theorem find_blockAux_nil (m : Matcher) (pat : String) (i : Nat) :
    find_blockAux m pat [] i = none := rfl

theorem find_blockAux_cons (m : Matcher) (pat line : String)
    (rest : List String) (i : Nat) :
    find_blockAux m pat (line :: rest) i =
      if m pat line then some i else find_blockAux m pat rest (i + 1) := rfl

theorem find_blockAux_eq_some (m : Matcher) (pat : String) :
    ∀ (ls : List String) (i j : Nat), find_blockAux m pat ls i = some j →
      i ≤ j ∧ j - i < ls.length ∧ m pat (ls.getD (j - i) "") = true ∧
      ∀ k, k < j - i → m pat (ls.getD k "") = false := by
  intro ls
  induction ls with
  | nil => intro i j h; simp [find_blockAux] at h
  | cons line rest ih =>
    intro i j h
    simp only [find_blockAux] at h
    by_cases hm : m pat line
    · rw [if_pos hm] at h
      obtain rfl : i = j := by simpa using h
      refine ⟨le_refl _, by simp, by simpa using hm, fun k hk => by omega⟩
    · rw [if_neg hm] at h
      obtain ⟨h1, h2, h3, h4⟩ := ih (i + 1) j h
      refine ⟨by omega, by simp; omega, ?_, ?_⟩
      · have : j - i = (j - (i + 1)) + 1 := by omega
        rw [this]; simpa using h3
      · intro k hk
        match k with
        | 0 => simpa using hm
        | k' + 1 =>
          have : k' < j - (i + 1) := by omega
          simpa using h4 k' this

theorem find_blockAux_eq_none (m : Matcher) (pat : String) :
    ∀ (ls : List String) (i : Nat),
      (∀ k, k < ls.length → m pat (ls.getD k "") = false) →
      find_blockAux m pat ls i = none := by
  intro ls
  induction ls with
  | nil => intro i _; rfl
  | cons line rest ih =>
    intro i h
    have hline : m pat line = false := by simpa using h 0 (by simp)
    simp only [find_blockAux, hline, if_neg Bool.false_ne_true, if_false]
    exact ih (i + 1) fun k hk => by simpa using h (k + 1) (by simpa using hk)

theorem getD_drop (lines : List String) (f k : Nat) :
    (lines.drop f).getD k "" = lines.getD (f + k) "" := by
  rw [List.getD_eq_getElem?_getD, List.getD_eq_getElem?_getD, List.getElem?_drop]

/-- First-match characterization of a successful `find_block` search: the
result lies in the search range, its line matches, and no earlier line in the
range matches. -/
theorem find_block_eq_some (m : Matcher) (pat : String) (lines : List String)
    (f i : Nat) (h : find_block m lines pat f = some i) :
    f ≤ i ∧ i < lines.length ∧ m pat (lines.getD i "") = true ∧
      ∀ j, f ≤ j → j < i → m pat (lines.getD j "") = false := by
  obtain ⟨h1, h2, h3, h4⟩ := find_blockAux_eq_some m pat (lines.drop f) f i h
  rw [List.length_drop] at h2
  rw [getD_drop] at h3
  refine ⟨h1, by omega, ?_, ?_⟩
  · have : f + (i - f) = i := by omega
    rwa [this] at h3
  · intro j hf hj
    have := h4 (j - f) (by omega)
    rw [getD_drop] at this
    have hfj : f + (j - f) = j := by omega
    rwa [hfj] at this

/-- A search range with zero matches makes `find_block` return `none`. -/
theorem find_block_eq_none (m : Matcher) (pat : String) (lines : List String)
    (f : Nat) (h : ∀ j, f ≤ j → j < lines.length → m pat (lines.getD j "") = false) :
    find_block m lines pat f = none := by
  refine find_blockAux_eq_none m pat (lines.drop f) f fun k hk => ?_
  rw [List.length_drop] at hk
  rw [getD_drop]
  exact h (f + k) (by omega) (by omega)

theorem findFromAux_spec (m : Matcher) (pat : String) (lines : List String) :
    ∀ (fuel a : Nat), fuel = lines.length - a →
      findFromAux m pat lines fuel (a : Int) =
        .ok ((find_block m lines pat a).map fun n => (n : Int)) := by
  intro fuel
  induction fuel with
  | zero =>
    intro a h
    have ha : lines.length ≤ a := by omega
    have : lines.drop a = [] := List.drop_eq_nil_of_le ha
    simp [findFromAux, find_block, this, find_blockAux]
  | succ fuel ih =>
    intro a h
    have ha : a < lines.length := by omega
    have hget : pyGetIdx lines (a : Int) = some lines[a] := by
      simp only [pyGetIdx]
      rw [if_neg (by omega)]
      rw [List.get?_eq_getElem?, Int.toNat_natCast]
      exact List.getElem?_eq_getElem ha
    have hdrop : lines.drop a = lines[a] :: lines.drop (a + 1) :=
      List.drop_eq_getElem_cons ha
    simp only [findFromAux, hget]
    by_cases hm : m pat lines[a]
    · rw [if_pos hm]
      conv_rhs => rw [find_block, hdrop, find_blockAux_cons, if_pos hm]
      rfl
    · rw [if_neg hm]
      have hcast : (a : Int) + 1 = ((a + 1 : Nat) : Int) := by omega
      rw [hcast, ih (a + 1) (by omega)]
      conv_rhs => rw [find_block, hdrop, find_blockAux_cons, if_neg hm]
      rfl

/-- For a non-negative start index the end-pattern search of
`textedit_procedure.py` coincides with `find_block` from that index. -/
theorem findFrom_natCast (m : Matcher) (lines : List String) (pat : String)
    (a : Nat) :
    findFrom m lines pat (a : Int) =
      .ok ((find_block m lines pat a).map fun n => (n : Int)) := by
  have : ((lines.length : Int) - (a : Int)).toNat = lines.length - a := by omega
  rw [findFrom, this]
  exact findFromAux_spec m pat lines (lines.length - a) a rfl

example : TP.DeleteOperation.apply substrMatch
    { start_line := some 2, end_line := some 2 } ["a\n", "b\n", "c\n"] =
    .ok ["a\n", "c\n"] := by decide

example : TP.InsertOperation.apply substrMatch
    { content := ["x"], after_line := some 1 } ["a\n", "c\n"] =
    .ok ["a\n", "x\n", "c\n"] := by decide

example : TP.InsertOperation.apply substrMatch
    { content := ["x"], before_pattern := some "a" } ["a\n", "b\n"] =
    .error (.patternNotFound "a") := by decide

example : TP.ReplaceOperation.apply anchoredLineMatch
    { content := ["B1", "B2"], start_pattern := some "^b$" }
    ["a\n", "b\n", "c\n"] =
    .ok ["a\n", "B1\n", "B2\n", "c\n"] := by decide

example : TP.DeleteOperation.apply substrMatch
    { start_line := some 1, expected_content := some "zzz" } ["a\n"] =
    .error .verificationFailed := by decide

example : TP.DeleteOperation.apply substrMatch
    { start_line := some 5, end_line := some 5 } ["a\n"] =
    .ok ["a\n"] := by decide

example : TP.InsertOperation.apply substrMatch
    { content := ["x"], after_line := some 2, expected_content := some "a" }
    ["a\n"] = .error .indexError := by decide

/-! ### Claim theorems -/

/-- C1: `edit_text_file` applies the operation list strictly in list order as
a fold over the in-memory line list — the state handed to operation `k` is
the line sequence produced by operations `0..k-1`, not the original file —
and on lines `["a\n","b\n","c\n"]` the list
`[Delete(start_line=2,end_line=2), Insert(after_line=1, content=["x"])]`
yields `["a\n","x\n","c\n"]`. -/
theorem edit_text_file_sequential_composition :
    (∀ (m : Matcher) (ops : List TP.Operation) (lines : List String),
      TP.applyOps m ops lines =
        ops.foldlM (fun ls op => TP.Operation.apply m op ls) lines) ∧
    ∀ m : Matcher,
      TP.applyOps m
        [.delete { start_line := some 2, end_line := some 2 },
         .insert { content := ["x"], after_line := some 1 }]
        ["a\n", "b\n", "c\n"] = .ok ["a\n", "x\n", "c\n"] := by
  constructor
  · intro m ops
    induction ops with
    | nil => intro lines; rfl
    | cons op rest ih =>
      intro lines
      rw [List.foldlM_cons]
      simp only [TP.applyOps]
      cases h : TP.Operation.apply m op lines with
      | error e => rfl
      | ok mutated => exact ih mutated
  · intro m; rfl

/-- C2: whenever any operation of a request fails, the engine writes nothing:
persistence is a single write placed after the whole operation loop, so the
on-disk body after a failed request is exactly the body before it.  This
holds for both `edit_text_file` (`textedit_procedure.py`) and `edit_file`
(`tools/edit.py`). -/
theorem no_write_on_failure :
    (∀ (m : Matcher) (disk : String) (ops : List TP.Operation) (e : EditError),
      TP.edit_text_file m disk ops = .error e →
      TP.diskAfterEdit m disk ops = disk) ∧
    ∀ (m : Matcher) (disk : String) (ops : List TE.TEOperation) (e : EditError),
      TE.edit_file m disk ops = .error e →
      TE.diskAfterEditFile m disk ops = disk := by
  constructor
  · intro m disk ops e h
    simp [TP.diskAfterEdit, h]
  · intro m disk ops e h
    simp [TE.diskAfterEditFile, h]

/-- Witness for C2 at a concrete failing request: a Delete whose
`expected_content` does not match; the disk body survives unchanged in both
engines. -/
theorem no_write_on_failure_witness :
    TP.diskAfterEdit substrMatch "a\n"
      [.delete { start_line := some 1, expected_content := some "zzz" }] = "a\n" ∧
    TE.diskAfterEditFile substrMatch "a\n"
      [{ type := "delete", start_line := some 1,
         expected_content := some "zzz" }] = "a\n" :=
  ⟨no_write_on_failure.1 substrMatch "a\n" _ .verificationFailed (by decide),
   no_write_on_failure.2 substrMatch "a\n" _ (.editFailed .verificationFailed)
     (by decide)⟩

/-- C3: in the engine the server actually wires in
(`textedit_procedure.InsertOperation.apply`), a `before_pattern` matching the
very first line does NOT insert at file start: the source computes
`next((i - 1 for ...), -1)` and then treats `-1` as the not-found sentinel,
so the legitimate anchor `-1` produced by a match at index 0 raises
`PatternNotFound`.  The parallel engine `tools/edit.py` implements the
intended behavior and prepends.  Concretely: the pattern `"a"` matches the
first line of `["a\n","b\n"]`, yet the main engine raises while the variant
engine prepends `"x\n"`. -/
theorem insert_before_first_line_raises :
    substrMatch "a" "a\n" = true ∧
    TP.InsertOperation.apply substrMatch
      { content := ["x"], before_pattern := some "a" } ["a\n", "b\n"] =
      .error (.patternNotFound "a") ∧
    TE.process_operation substrMatch ["a\n", "b\n"]
      { type := "insert", before_pattern := some "a", content := some ["x"] } =
      .ok ["x\n", "a\n", "b\n"] :=
  ⟨by decide, by decide, by decide⟩

/-- Counterexample to C4 as stated: this Delete carries an
`expected_content` (the empty string) that does not match the resolved
block's text even after trimming, yet the engine — which tests Python
truthiness, not presence — skips verification entirely and deletes the line
instead of failing with `VerificationFailed`. -/
theorem empty_expected_content_skips_verification :
    TP.DeleteOperation.apply substrMatch
      { start_line := some 1, expected_content := some "" } ["a\n"] = .ok [] ∧
    pyStrip (String.join (pySlice ["a\n"] 0 (0 + 1))) ≠ pyStrip "" :=
  ⟨by decide, by decide⟩

/-- C4 (amended): for every Delete or Replace carrying a NON-EMPTY
`expected_content` and a resolved block `[start, end]`, the engine joins
`lines[start..end]` with no added separators, compares the
whitespace-trimmed join to the whitespace-trimmed expectation, and fails
with `VerificationFailed` on mismatch, producing no mutated line sequence;
verification is skipped when `expected_content` is absent (and, beyond the
original claim, also when it is the empty string, which Python treats as
falsy).  In particular `Delete(start_line=1, expected_content="zzz")` on
`["a\n"]` fails with `VerificationFailed` and the on-disk file — written
only once, after all operations succeed — is untouched. -/
theorem verification_gate :
    (∀ (m : Matcher) (op : TP.DeleteOperation) (lines : List String)
        (s e : Int) (exp : String),
      TP.resolveStartIdx m op.start_pattern op.start_line lines = .ok s →
      TP.resolveEndIdx m op.end_pattern op.end_line s lines = .ok e →
      op.expected_content = some exp → exp ≠ "" →
      pyStrip (String.join (pySlice lines s (e + 1))) ≠ pyStrip exp →
      TP.DeleteOperation.apply m op lines = .error .verificationFailed) ∧
    (∀ (m : Matcher) (op : TP.ReplaceOperation) (lines : List String)
        (s e : Int) (exp : String),
      TP.resolveStartIdx m op.start_pattern op.start_line lines = .ok s →
      TP.resolveEndIdx m op.end_pattern op.end_line s lines = .ok e →
      op.expected_content = some exp → exp ≠ "" →
      pyStrip (String.join (pySlice lines s (e + 1))) ≠ pyStrip exp →
      TP.ReplaceOperation.apply m op lines = .error .verificationFailed) ∧
    (∀ (m : Matcher) (op : TP.DeleteOperation) (lines : List String)
        (s e : Int),
      TP.resolveStartIdx m op.start_pattern op.start_line lines = .ok s →
      TP.resolveEndIdx m op.end_pattern op.end_line s lines = .ok e →
      op.expected_content = none →
      TP.DeleteOperation.apply m op lines =
        .ok (pySliceTo lines s ++ pySliceFrom lines (e + 1))) ∧
    TP.edit_text_file substrMatch "a\n"
      [.delete { start_line := some 1, expected_content := some "zzz" }] =
      .error .verificationFailed ∧
    TP.diskAfterEdit substrMatch "a\n"
      [.delete { start_line := some 1, expected_content := some "zzz" }] =
      "a\n" := by
  refine ⟨?_, ?_, ?_, by decide, by decide⟩
  · intro m op lines s e exp hs he hexp hne hmm
    simp only [TP.DeleteOperation.apply, hs, he, TP.verifyBlock, hexp,
      pyTruthyStr, if_neg hne, if_neg hmm]
  · intro m op lines s e exp hs he hexp hne hmm
    simp only [TP.ReplaceOperation.apply, hs, he, TP.verifyBlock, hexp,
      pyTruthyStr, if_neg hne, if_neg hmm]
  · intro m op lines s e hs he hexp
    simp only [TP.DeleteOperation.apply, hs, he, TP.verifyBlock, hexp,
      pyTruthyStr]

/-- Witness for C4 (amended) at a concrete input: `Delete(start_line=1,
expected_content="zzz")` on `["a\n"]`, whose resolved block is `[0, 0]` and
whose trimmed block text `"a"` differs from `"zzz"`. -/
theorem verification_gate_witness :
    TP.DeleteOperation.apply substrMatch
      { start_line := some 1, expected_content := some "zzz" } ["a\n"] =
      .error .verificationFailed :=
  verification_gate.1 substrMatch
    { start_line := some 1, expected_content := some "zzz" } ["a\n"] 0 0 "zzz"
    (by decide) (by decide) rfl (by decide) (by decide)

/-- Counterexample to C5 as stated: the engine the server wires in accepts
out-of-range line numbers without any `InvalidLineRange` error
(`Delete(start_line=5, end_line=5)` on a one-line file silently leaves the
lines as-is), and the variant engine `tools/edit.py` accepts a resolved
start greater than the resolved end (start index 2, end index 1) without
error. -/
theorem out_of_range_silently_accepted :
    TP.DeleteOperation.apply substrMatch
      { start_line := some 5, end_line := some 5 } ["a\n"] = .ok ["a\n"] ∧
    TE.process_operation substrMatch ["a\n", "b\n", "c\n"]
      { type := "delete", start_line := some 3, end_line := some 1 } =
      .ok ["a\n", "b\n", "c\n"] :=
  ⟨by decide, by decide⟩

/-- C5 (amended): in line-number mode `end_line` defaults to `start_line`
when absent (first conjunct, for the main engine).  Only the variant engine
`tools/edit.py` validates ranges: a resolved start below 0 or a resolved end
at or beyond the line count fails there with `InvalidLineRange` (second
conjunct).  The main engine `textedit_procedure.py` performs no range
validation at all: in line-number mode, Delete and Replace succeed for EVERY
integer `start_line` and every `end_line`, silently editing or leaving the
lines as-is via Python's clamping slice semantics (third and fourth
conjuncts).  A resolved start greater than the resolved end is rejected by
neither engine. -/
theorem line_range_checking :
    (∀ (m : Matcher) (ep : Option String) (s : Int) (lines : List String),
      pyTruthyStr ep = none →
      TP.resolveEndIdx m ep none s lines = .ok s) ∧
    (∀ (m : Matcher) (lines : List String) (op : TE.TEOperation),
      op.start_pattern = none → op.after_pattern = none →
      op.before_pattern = none →
      ((op.start_line.getD (op.after_line.getD 1)) - 1 < 0 ∨
        (lines.length : Int) ≤
          op.end_line.getD ((op.start_line.getD (op.after_line.getD 1)) - 1)) →
      TE.process_operation m lines op =
        .error (.invalidLineRange
          ((op.start_line.getD (op.after_line.getD 1)) - 1 + 1)
          (op.end_line.getD ((op.start_line.getD (op.after_line.getD 1)) - 1) + 1))) ∧
    (∀ (m : Matcher) (sl : Int) (el : Option Int) (lines : List String),
      TP.DeleteOperation.apply m { start_line := some sl, end_line := el }
          lines =
        .ok (pySliceTo lines (sl - 1) ++
          pySliceFrom lines
            ((match pyTruthyInt el with
              | some n => n - 1
              | none => sl - 1) + 1))) ∧
    (∀ (m : Matcher) (content : List String) (sl : Int) (el : Option Int)
        (lines : List String),
      TP.ReplaceOperation.apply m
          { content := content, start_line := some sl, end_line := el }
          lines =
        .ok (pySliceTo lines (sl - 1) ++ contentWithNewlines content ++
          pySliceFrom lines
            ((match pyTruthyInt el with
              | some n => n - 1
              | none => sl - 1) + 1))) := by
  refine ⟨?_, ?_, ?_, ?_⟩
  · intro m ep s lines h
    simp only [TP.resolveEndIdx, h, pyTruthyInt]
  · intro m lines op h1 h2 h3 h4
    simp only [TE.process_operation, TE.locate, h1, h2, h3, if_pos h4]
  · intro m sl el lines
    simp only [TP.DeleteOperation.apply, TP.resolveStartIdx, pyTruthyStr,
      TP.resolveEndIdx, TP.verifyBlock]
    cases pyTruthyInt el <;> rfl
  · intro m content sl el lines
    simp only [TP.ReplaceOperation.apply, TP.resolveStartIdx, pyTruthyStr,
      TP.resolveEndIdx, TP.verifyBlock]
    cases pyTruthyInt el <;> rfl

/-- Witness for C5 (amended) at concrete inputs: the default of a missing
`end_line`, a rejected `start_line = 0` in the variant engine, and the main
engine silently accepting `start_line = 5` on a one-line file. -/
theorem line_range_checking_witness :
    TP.resolveEndIdx substrMatch none none 3 ["a\n"] = .ok 3 ∧
    TE.process_operation substrMatch ["a\n"]
      { type := "delete", start_line := some 0 } =
      .error (.invalidLineRange 0 0) ∧
    TP.DeleteOperation.apply substrMatch
      { start_line := some 5, end_line := none } ["a\n"] = .ok ["a\n"] :=
  ⟨line_range_checking.1 substrMatch none 3 ["a\n"] rfl,
   line_range_checking.2.1 substrMatch ["a\n"]
     { type := "delete", start_line := some 0 } rfl rfl rfl
     (by decide),
   by
     have := line_range_checking.2.2.1 substrMatch 5 none ["a\n"]
     simpa using this⟩

/-- C6: once a locator resolves — to block `(start, end)` for Delete/Replace
or to anchor `a` for Insert — a successful apply returns exactly
`lines[0:start] ++ lines[end+1:]` for Delete,
`lines[0:start] ++ normalizedContent ++ lines[end+1:]` for Replace, and
`lines[0:a+1] ++ normalizedContent ++ lines[a+1:]` for Insert, where
`normalizedContent` keeps a content string ending in `'\n'` unchanged and
appends a single `'\n'` otherwise; and
`Replace(start_pattern="^b$", content=["B1","B2"])` on `["a\n","b\n","c\n"]`
yields `["a\n","B1\n","B2\n","c\n"]`. -/
theorem applier_equations :
    (∀ (m : Matcher) (op : TP.DeleteOperation) (lines out : List String)
        (s e : Int),
      TP.resolveStartIdx m op.start_pattern op.start_line lines = .ok s →
      TP.resolveEndIdx m op.end_pattern op.end_line s lines = .ok e →
      TP.DeleteOperation.apply m op lines = .ok out →
      out = pySliceTo lines s ++ pySliceFrom lines (e + 1)) ∧
    (∀ (m : Matcher) (op : TP.ReplaceOperation) (lines out : List String)
        (s e : Int),
      TP.resolveStartIdx m op.start_pattern op.start_line lines = .ok s →
      TP.resolveEndIdx m op.end_pattern op.end_line s lines = .ok e →
      TP.ReplaceOperation.apply m op lines = .ok out →
      out = pySliceTo lines s ++ contentWithNewlines op.content ++
        pySliceFrom lines (e + 1)) ∧
    (∀ (m : Matcher) (op : TP.InsertOperation) (lines out : List String)
        (a : Int),
      TP.resolveInsertIdx m op lines = .ok a →
      TP.InsertOperation.apply m op lines = .ok out →
      out = pySliceTo lines (a + 1) ++ contentWithNewlines op.content ++
        pySliceFrom lines (a + 1)) ∧
    (∀ line : String, endsWithNl line = true →
      contentWithNewlines [line] = [line]) ∧
    (∀ line : String, endsWithNl line = false →
      contentWithNewlines [line] = [line ++ "\n"]) ∧
    TP.ReplaceOperation.apply anchoredLineMatch
      { content := ["B1", "B2"], start_pattern := some "^b$" }
      ["a\n", "b\n", "c\n"] =
      .ok ["a\n", "B1\n", "B2\n", "c\n"] := by
  refine ⟨?_, ?_, ?_, ?_, ?_, by decide⟩
  · intro m op lines out s e hs he happ
    simp only [TP.DeleteOperation.apply, hs, he] at happ
    cases hv : TP.verifyBlock op.expected_content s e lines with
    | error err => simp [hv] at happ
    | ok u =>
      simp only [hv] at happ
      injection happ with h
      exact h.symm
  · intro m op lines out s e hs he happ
    simp only [TP.ReplaceOperation.apply, hs, he] at happ
    cases hv : TP.verifyBlock op.expected_content s e lines with
    | error err => simp [hv] at happ
    | ok u =>
      simp only [hv] at happ
      injection happ with h
      exact h.symm
  · intro m op lines out a ha happ
    simp only [TP.InsertOperation.apply, ha] at happ
    cases hv : TP.verifyAnchor op.expected_content a lines with
    | error err => simp [hv] at happ
    | ok u =>
      simp only [hv] at happ
      injection happ with h
      exact h.symm
  · intro line h
    simp [contentWithNewlines, h]
  · intro line h
    simp [contentWithNewlines, h]

/-- Witness for C6 at concrete inputs: the three applier equations evaluated
on small files (a one-line delete, the `^b$` replace of the spec, and an
insert after line 1), plus the two normalization cases. -/
theorem applier_equations_witness :
    (["a\n", "c\n"] : List String) =
      pySliceTo ["a\n", "b\n", "c\n"] 1 ++ pySliceFrom ["a\n", "b\n", "c\n"] 2 ∧
    (["a\n", "B1\n", "B2\n", "c\n"] : List String) =
      pySliceTo ["a\n", "b\n", "c\n"] 1 ++ contentWithNewlines ["B1", "B2"] ++
        pySliceFrom ["a\n", "b\n", "c\n"] 2 ∧
    (["a\n", "x\n", "c\n"] : List String) =
      pySliceTo ["a\n", "c\n"] 1 ++ contentWithNewlines ["x"] ++
        pySliceFrom ["a\n", "c\n"] 1 ∧
    contentWithNewlines ["B1\n"] = ["B1\n"] ∧
    contentWithNewlines ["B1"] = ["B1\n"] :=
  ⟨applier_equations.1 substrMatch
     { start_line := some 2, end_line := some 2 } ["a\n", "b\n", "c\n"]
     ["a\n", "c\n"] 1 1 (by decide) (by decide) (by decide),
   applier_equations.2.1 anchoredLineMatch
     { content := ["B1", "B2"], start_pattern := some "^b$" }
     ["a\n", "b\n", "c\n"] ["a\n", "B1\n", "B2\n", "c\n"] 1 1
     (by decide) (by decide) (by decide),
   applier_equations.2.2.1 substrMatch
     { content := ["x"], after_line := some 1 } ["a\n", "c\n"]
     ["a\n", "x\n", "c\n"] 0 (by decide) (by decide),
   applier_equations.2.2.2.1 "B1\n" (by decide),
   applier_equations.2.2.2.2.1 "B1" (by decide)⟩

/-- Counterexample to C7 as stated: an operation carrying BOTH a pattern
field and a line-number field, where the pattern is the empty string.  Under
a matcher where the empty pattern matches every line (exactly as
`re.search("", line)` does), pattern precedence would resolve the start to
index 0 and delete the first line, giving `["b\n","c\n"]`; the code instead
treats the empty pattern as falsy, consults `start_line = 2`, and deletes
the second line. -/
theorem empty_pattern_falls_back_to_line_numbers :
    TP.DeleteOperation.apply (fun _ _ => true)
      { start_pattern := some "", start_line := some 2 }
      ["a\n", "b\n", "c\n"] = .ok ["a\n", "c\n"] ∧
    (Except.ok ["a\n", "c\n"] : Except EditError (List String)) ≠
      .ok ["b\n", "c\n"] :=
  ⟨by decide, by decide⟩

/-- C7 (amended): pattern resolution is first-match-wins over increasing
indices: a successful `find_block` search returns the lowest matching index
at or after its start index (first conjunct); in the main engine a Delete
with truthy start and end patterns resolves its start by a search from index
0 and its end by a search beginning strictly after the resolved start
(second conjunct); a non-empty required pattern with zero matches fails with
`PatternNotFound` naming it (third conjunct); and a NON-EMPTY
`start_pattern` takes precedence over `start_line`, which is then ignored
(fourth conjunct).  Beyond the original claim, an EMPTY-string pattern is
falsy in Python and falls through to the line-number fields instead of
taking precedence. -/
theorem pattern_resolution_first_match :
    (∀ (m : Matcher) (pat : String) (lines : List String) (f i : Nat),
      find_block m lines pat f = some i →
      f ≤ i ∧ i < lines.length ∧ m pat (lines.getD i "") = true ∧
        ∀ j, f ≤ j → j < i → m pat (lines.getD j "") = false) ∧
    (∀ (m : Matcher) (op : TP.DeleteOperation) (p q : String)
        (lines : List String) (s e : Int),
      op.start_pattern = some p → p ≠ "" →
      op.end_pattern = some q → q ≠ "" →
      TP.resolveStartIdx m op.start_pattern op.start_line lines = .ok s →
      TP.resolveEndIdx m op.end_pattern op.end_line s lines = .ok e →
      ∃ sn en : Nat, s = (sn : Int) ∧ e = (en : Int) ∧
        find_block m lines p 0 = some sn ∧
        find_block m lines q (sn + 1) = some en) ∧
    (∀ (m : Matcher) (op : TP.DeleteOperation) (p : String)
        (lines : List String),
      op.start_pattern = some p → p ≠ "" →
      (∀ line ∈ lines, m p line = false) →
      TP.DeleteOperation.apply m op lines = .error (.patternNotFound p)) ∧
    (∀ (m : Matcher) (op : TP.DeleteOperation) (p : String)
        (sl sl' : Option Int) (lines : List String),
      op.start_pattern = some p → p ≠ "" →
      TP.DeleteOperation.apply m { op with start_line := sl } lines =
        TP.DeleteOperation.apply m { op with start_line := sl' } lines) := by
  refine ⟨find_block_eq_some, ?_, ?_, ?_⟩
  · intro m op p q lines s e hp hpne hq hqne hs he
    rw [hp] at hs
    simp only [TP.resolveStartIdx, pyTruthyStr, if_neg hpne] at hs
    cases hfb : find_block m lines p 0 with
    | none => rw [hfb] at hs; cases hs
    | some sn =>
      rw [hfb] at hs
      injection hs with hs
      rw [hq] at he
      simp only [TP.resolveEndIdx, pyTruthyStr, if_neg hqne] at he
      have hcast : s + 1 = ((sn + 1 : Nat) : Int) := by omega
      rw [hcast, findFrom_natCast] at he
      cases hfe : find_block m lines q (sn + 1) with
      | none => rw [hfe] at he; simp at he
      | some en =>
        rw [hfe] at he
        simp at he
        exact ⟨sn, en, hs.symm, by omega, rfl, hfe⟩
  · intro m op p lines hp hpne hno
    have hnone : find_block m lines p 0 = none := by
      refine find_block_eq_none m p lines 0 fun j _ hj => ?_
      have hgd : lines.getD j "" = lines[j] := by
        rw [List.getD_eq_getElem?_getD, List.getElem?_eq_getElem hj]
        rfl
      rw [hgd]
      exact hno _ (List.getElem_mem hj)
    simp only [TP.DeleteOperation.apply, TP.resolveStartIdx, hp, pyTruthyStr,
      if_neg hpne, hnone]
  · intro m op p sl sl' lines hp hpne
    obtain ⟨sp0, ep0, sl0, el0, ec0⟩ := op
    subst hp
    have key : ∀ slx : Option Int,
        TP.resolveStartIdx m (some p) slx lines =
          TP.resolveStartIdx m (some p) none lines := by
      intro slx
      simp only [TP.resolveStartIdx, pyTruthyStr, if_neg hpne]
    simp only [TP.DeleteOperation.apply]
    rw [key sl, key sl']

/-- Witness for C7 (amended) at concrete inputs: the first-match facts for
pattern `"b"` on a three-line file, a `PatternNotFound` failure for an
unmatched pattern, and the irrelevance of `start_line` next to a non-empty
`start_pattern`. -/
theorem pattern_resolution_first_match_witness :
    (0 ≤ 1 ∧ 1 < 3 ∧
      substrMatch "b" ((["a\n", "b\n", "c\n"] : List String).getD 1 "") = true ∧
      ∀ j, 0 ≤ j → j < 1 →
        substrMatch "b" ((["a\n", "b\n", "c\n"] : List String).getD j "") = false) ∧
    TP.DeleteOperation.apply substrMatch { start_pattern := some "z" }
      ["a\n", "b\n"] = .error (.patternNotFound "z") ∧
    TP.DeleteOperation.apply substrMatch
      { start_pattern := some "b", start_line := some 1 }
      ["a\n", "b\n", "c\n"] =
      TP.DeleteOperation.apply substrMatch
        { start_pattern := some "b", start_line := some 99 }
        ["a\n", "b\n", "c\n"] :=
  ⟨pattern_resolution_first_match.1 substrMatch "b" ["a\n", "b\n", "c\n"]
     0 1 (by decide),
   pattern_resolution_first_match.2.2.1 substrMatch
     { start_pattern := some "z" } "z" ["a\n", "b\n"] rfl (by decide)
     (by decide),
   pattern_resolution_first_match.2.2.2 substrMatch
     { start_pattern := some "b" } "b" (some 1) (some 99)
     ["a\n", "b\n", "c\n"] rfl (by decide)⟩

/-! ### Small slice lemmas used by the Insert claims -/

theorem pyIdx_zero (n : Nat) : pyIdx n 0 = 0 := by
  simp [pyIdx]

theorem pyIdx_ge (n : Nat) (b : Int) (h : (n : Int) ≤ b) : pyIdx n b = n := by
  unfold pyIdx
  rw [if_neg (by omega)]
  exact min_eq_right (by omega)

theorem pySliceTo_zero (l : List String) : pySliceTo l 0 = [] := by
  simp [pySliceTo, pyIdx_zero]

theorem pySliceFrom_zero (l : List String) : pySliceFrom l 0 = l := by
  simp [pySliceFrom, pyIdx_zero]

theorem pySliceTo_ge (l : List String) (b : Int) (h : (l.length : Int) ≤ b) :
    pySliceTo l b = l := by
  simp [pySliceTo, pyIdx_ge _ _ h]

theorem pySliceFrom_ge (l : List String) (b : Int) (h : (l.length : Int) ≤ b) :
    pySliceFrom l b = [] := by
  simp [pySliceFrom, pyIdx_ge _ _ h]

/-- C8: `append_text` with `ensure_newline=true` fails with `EmptyContent`
when the content list is empty (the check precedes every file access); on a
non-empty file whose last character is not `'\n'` it writes exactly one
separating newline before the appended content; on a file already ending
with `'\n'` (or an empty file) it introduces no extra newline; and each
appended content line is written followed by a `'\n'` unless it already
ends with one.  The I/O-failure wrapper of the source surrounds primitives
that cannot fail in this pure model, so it adds nothing here. -/
theorem append_text_ensure_newline :
    (∀ (disk : String) (en : Bool),
      AP.append_text disk [] en = .error .emptyContent) ∧
    (∀ (disk : String) (content : List String),
      content ≠ [] → disk ≠ "" → disk.toList.getLast? ≠ some '\n' →
      AP.append_text disk content true =
        .ok (disk ++ "\n" ++ String.join (contentWithNewlines content))) ∧
    (∀ (disk : String) (content : List String),
      content ≠ [] → disk.toList.getLast? = some '\n' →
      AP.append_text disk content true =
        .ok (disk ++ String.join (contentWithNewlines content))) ∧
    (∀ content : List String,
      content ≠ [] →
      AP.append_text "" content true =
        .ok (String.join (contentWithNewlines content))) ∧
    (∀ line : String, endsWithNl line = false →
      contentWithNewlines [line] = [line ++ "\n"]) ∧
    (∀ line : String, endsWithNl line = true →
      contentWithNewlines [line] = [line]) := by
  refine ⟨?_, ?_, ?_, ?_, ?_, ?_⟩
  · intro disk en
    simp [AP.append_text]
  · intro disk content hc hd hl
    have hne : ¬disk.isEmpty := by
      simpa [String.isEmpty_iff] using hd
    have hl2 : ¬disk.data.getLast? = some '\n' := hl
    simp only [AP.append_text, if_neg hc]
    simp [hne, hl2]
  · intro disk content hc hl
    have hl2 : disk.data.getLast? = some '\n' := hl
    simp only [AP.append_text, if_neg hc]
    simp [hl2]
  · intro content hc
    simp only [AP.append_text, if_neg hc]
    rw [if_neg (by decide)]
    exact congrArg Except.ok (String.empty_append _)
  · intro line h
    simp [contentWithNewlines, h]
  · intro line h
    simp [contentWithNewlines, h]

/-- Witness for C8 at concrete inputs: appending `["x"]` to a file lacking a
trailing newline, to one having it, and to an empty file, plus the two
per-line normalization cases and the empty-content failure. -/
theorem append_text_ensure_newline_witness :
    AP.append_text "a" [] true = .error .emptyContent ∧
    AP.append_text "a" ["x"] true =
      .ok ("a" ++ "\n" ++ String.join (contentWithNewlines ["x"])) ∧
    AP.append_text "a\n" ["x"] true =
      .ok ("a\n" ++ String.join (contentWithNewlines ["x"])) ∧
    AP.append_text "" ["x"] true =
      .ok (String.join (contentWithNewlines ["x"])) ∧
    contentWithNewlines ["x"] = ["x" ++ "\n"] ∧
    contentWithNewlines ["x\n"] = ["x\n"] :=
  ⟨append_text_ensure_newline.1 "a" true,
   append_text_ensure_newline.2.1 "a" ["x"] (by decide) (by decide) (by decide),
   append_text_ensure_newline.2.2.1 "a\n" ["x"] (by decide) (by decide),
   append_text_ensure_newline.2.2.2.1 ["x"] (by decide),
   append_text_ensure_newline.2.2.2.2.1 "x" (by decide),
   append_text_ensure_newline.2.2.2.2.2 "x\n" (by decide)⟩

/-- Counterexample to C9 as stated: `after_line = 2` is non-negative, yet on
the one-line file `["a\n"]` an Insert that also carries
`expected_content="a"` resolves its anchor to index 1 and the verification
step's `lines[1]` raises `IndexError` — so not every non-negative
`after_line` is error-free. -/
theorem insert_after_line_overflow_with_expected :
    TP.InsertOperation.apply substrMatch
      { content := ["x"], after_line := some 2, expected_content := some "a" }
      ["a\n"] = .error .indexError := by
  decide

/-- C9 (amended): in line-number mode, for an Insert whose
`expected_content` is not truthy (absent or empty — the restriction the
counterexample forces: a non-empty `expected_content` with an anchor at or
past the line count raises `IndexError` instead), every `after_line ≥ 0`
succeeds: `after_line = 0` prepends the normalized content at the very
start, every `after_line` at or above the line count appends it at the end,
and no such operation ever raises. -/
theorem insert_after_line_clamping :
    (∀ (m : Matcher) (content lines : List String) (al : Int)
        (ec : Option String),
      pyTruthyStr ec = none → 0 ≤ al →
      ∃ out, TP.InsertOperation.apply m
        { content := content, after_line := some al, expected_content := ec }
        lines = .ok out) ∧
    (∀ (m : Matcher) (content lines : List String) (ec : Option String),
      pyTruthyStr ec = none →
      TP.InsertOperation.apply m
        { content := content, after_line := some 0, expected_content := ec }
        lines = .ok (contentWithNewlines content ++ lines)) ∧
    (∀ (m : Matcher) (content lines : List String) (al : Int)
        (ec : Option String),
      pyTruthyStr ec = none → (lines.length : Int) ≤ al →
      TP.InsertOperation.apply m
        { content := content, after_line := some al, expected_content := ec }
        lines = .ok (lines ++ contentWithNewlines content)) := by
  have happ : ∀ (m : Matcher) (content lines : List String) (al : Int)
      (ec : Option String), pyTruthyStr ec = none →
      TP.InsertOperation.apply m
        { content := content, after_line := some al, expected_content := ec }
        lines =
        .ok (pySliceTo lines (al - 1 + 1) ++ contentWithNewlines content ++
          pySliceFrom lines (al - 1 + 1)) := by
    intro m content lines al ec hec
    have hnone : pyTruthyStr (none : Option String) = none := rfl
    simp only [TP.InsertOperation.apply, TP.resolveInsertIdx, hnone,
      TP.verifyAnchor, hec]
  refine ⟨?_, ?_, ?_⟩
  · intro m content lines al ec hec _
    exact ⟨_, happ m content lines al ec hec⟩
  · intro m content lines ec hec
    rw [happ m content lines 0 ec hec]
    norm_num [pySliceTo_zero, pySliceFrom_zero]
  · intro m content lines al ec hec hal
    rw [happ m content lines al ec hec]
    rw [show al - 1 + 1 = al by omega, pySliceTo_ge lines al hal,
      pySliceFrom_ge lines al hal]
    simp

/-- Witness for C9 (amended) at concrete inputs: on `["a\n"]` with no
`expected_content`, `after_line = 7` succeeds, `after_line = 0` prepends and
`after_line = 5` appends. -/
theorem insert_after_line_clamping_witness :
    (∃ out, TP.InsertOperation.apply substrMatch
      { content := ["x"], after_line := some 7, expected_content := none }
      ["a\n"] = .ok out) ∧
    TP.InsertOperation.apply substrMatch
      { content := ["x"], after_line := some 0, expected_content := none }
      ["a\n"] = .ok (contentWithNewlines ["x"] ++ ["a\n"]) ∧
    TP.InsertOperation.apply substrMatch
      { content := ["x"], after_line := some 5, expected_content := none }
      ["a\n"] = .ok (["a\n"] ++ contentWithNewlines ["x"]) :=
  ⟨insert_after_line_clamping.1 substrMatch ["x"] ["a\n"] 7 none rfl
     (by decide),
   insert_after_line_clamping.2.1 substrMatch ["x"] ["a\n"] none rfl,
   insert_after_line_clamping.2.2 substrMatch ["x"] ["a\n"] 5 none rfl
     (by decide)⟩

/-- C10: Insert verification in the main engine compares ONLY the single
resolved anchor line — `lines[insert_idx]`, whitespace-trimmed — against the
trimmed non-empty `expected_content`, never a joined multi-line block: a
mismatch raises `VerificationFailed` with no mutated sequence produced, a
match lets the insertion proceed, and a negative resolved anchor (insertion
at file start) silently skips verification altogether. -/
theorem insert_anchor_verification :
    (∀ (m : Matcher) (op : TP.InsertOperation) (lines : List String)
        (a : Int) (exp line : String),
      TP.resolveInsertIdx m op lines = .ok a →
      op.expected_content = some exp → exp ≠ "" →
      0 ≤ a → pyGetIdx lines a = some line →
      pyStrip line ≠ pyStrip exp →
      TP.InsertOperation.apply m op lines = .error .verificationFailed) ∧
    (∀ (m : Matcher) (op : TP.InsertOperation) (lines : List String)
        (a : Int) (exp line : String),
      TP.resolveInsertIdx m op lines = .ok a →
      op.expected_content = some exp → exp ≠ "" →
      0 ≤ a → pyGetIdx lines a = some line →
      pyStrip line = pyStrip exp →
      TP.InsertOperation.apply m op lines =
        .ok (pySliceTo lines (a + 1) ++ contentWithNewlines op.content ++
          pySliceFrom lines (a + 1))) ∧
    (∀ (m : Matcher) (op : TP.InsertOperation) (lines : List String)
        (a : Int),
      TP.resolveInsertIdx m op lines = .ok a → a < 0 →
      TP.InsertOperation.apply m op lines =
        .ok (pySliceTo lines (a + 1) ++ contentWithNewlines op.content ++
          pySliceFrom lines (a + 1))) := by
  refine ⟨?_, ?_, ?_⟩
  · intro m op lines a exp line ha hexp hne h0 hget hmm
    simp only [TP.InsertOperation.apply, ha, TP.verifyAnchor, hexp,
      pyTruthyStr, if_neg hne, if_pos h0, hget, if_neg hmm]
  · intro m op lines a exp line ha hexp hne h0 hget hok
    simp only [TP.InsertOperation.apply, ha, TP.verifyAnchor, hexp,
      pyTruthyStr, if_neg hne, if_pos h0, hget, if_pos hok]
  · intro m op lines a ha hneg
    simp only [TP.InsertOperation.apply, ha, TP.verifyAnchor]
    cases hec : pyTruthyStr op.expected_content with
    | none => rfl
    | some exp =>
      have hna : ¬(0 ≤ a) := by omega
      simp [hna]

/-- Witness for C10 at concrete inputs: on `["a\n"]`, an Insert after line 1
expecting `"zzz"` fails verification, the same Insert expecting `"a"`
(trimmed match against the anchor line `"a\n"`) succeeds, and an Insert
after line 0 (anchor `-1`) skips verification despite expecting `"zzz"`. -/
theorem insert_anchor_verification_witness :
    TP.InsertOperation.apply substrMatch
      { content := ["x"], after_line := some 1, expected_content := some "zzz" }
      ["a\n"] = .error .verificationFailed ∧
    TP.InsertOperation.apply substrMatch
      { content := ["x"], after_line := some 1, expected_content := some "a" }
      ["a\n"] = .ok ["a\n", "x\n"] ∧
    TP.InsertOperation.apply substrMatch
      { content := ["x"], after_line := some 0, expected_content := some "zzz" }
      ["a\n"] = .ok ["x\n", "a\n"] := by
  refine ⟨?_, ?_, ?_⟩
  · exact insert_anchor_verification.1 substrMatch
      { content := ["x"], after_line := some 1, expected_content := some "zzz" }
      ["a\n"] 0 "zzz" "a\n" (by decide) rfl (by decide) (by decide)
      (by decide) (by decide)
  · have := insert_anchor_verification.2.1 substrMatch
      { content := ["x"], after_line := some 1, expected_content := some "a" }
      ["a\n"] 0 "a" "a\n" (by decide) rfl (by decide) (by decide)
      (by decide) (by decide)
    rw [this]
    decide
  · have := insert_anchor_verification.2.2 substrMatch
      { content := ["x"], after_line := some 0, expected_content := some "zzz" }
      ["a\n"] (-1) (by decide) (by decide)
    rw [this]
    decide

end TextEdit
